import Mathlib

/-!
# Verification of `src/platform.rs` (platform-dependent window support)

Shallow embedding of the three platform backends (`windows`, `linux`,
`macos`) of the `BaseWindow` trait.  Each backend is a structure
`OsWindow { hwnd, flags }`; every foreign call the code makes (to the
Sciter engine `_API.*` or to the OS) is recorded as an `Effect` in an
emitted trace, so "which calls were issued, with which arguments, in
which order" is directly statable.  Calls whose return value the code
consumes (`SciterCreateWindow`, the macOS `window` selector) take that
value as an explicit oracle argument.  A `panic!`/`assert!` path is the
`none` branch of an `Option` result.  All embeddings model the
non-windowless build (`cfg(not(feature = "windowless"))`).
-/

/-- `HWINDOW`: an opaque native handle, embedded as `Nat`; `0` is the null
pointer. -/
abbrev Handle : Type := Nat

/-- `RECT` (left, top, right, bottom), screen coordinates. -/
structure RECT where
  left : Int
  top : Int
  right : Int
  bottom : Int
deriving DecidableEq, Repr

/-- Modelled from the spec: the "is main/application window" bit of
`CreationFlags` (`SCITER_CREATE_WINDOW_FLAGS::SW_MAIN.bits()`, defined in
`capi/scdef.rs`, which is outside `src/`); only its identity as one fixed
bit matters here. -/
def SW_MAIN : Nat := 128

/-- Modelled from the spec: the "has title bar" bit of `CreationFlags`
(`SCITER_CREATE_WINDOW_FLAGS::SW_TITLEBAR.bits()`, defined in
`capi/scdef.rs`, outside `src/`); one fixed bit distinct from `SW_MAIN`. -/
def SW_TITLEBAR : Nat := 2

/-- Modelled from the spec: the engine window-command selector
`SCITER_WINDOW_CMD::SCITER_WINDOW_SET_STATE.bits()` (from `capi/scdef.rs`,
outside `src/`); an opaque command code. -/
def SCITER_WINDOW_SET_STATE : Nat := 6

/-- Modelled from the spec: engine window-state constants
{Hidden, Minimized, Maximized, Shown, Closed} (from `capi/scdef.rs`,
outside `src/`); only their distinctness matters. -/
def SCITER_WINDOW_STATE_HIDDEN : Nat := 1

/-- Modelled from the spec: the Minimized window-state constant. -/
def SCITER_WINDOW_STATE_MINIMIZED : Nat := 2

/-- Modelled from the spec: the Maximized window-state constant. -/
def SCITER_WINDOW_STATE_MAXIMIZED : Nat := 3

/-- Modelled from the spec: the Shown window-state constant. -/
def SCITER_WINDOW_STATE_SHOWN : Nat := 4

/-- Modelled from the spec: the Closed window-state constant. -/
def SCITER_WINDOW_STATE_CLOSED : Nat := 5

/-- Modelled from the spec: the engine application-command constants
{init, loop, stop} (`SCITER_APP_CMD`, from `capi/scdef.rs`, outside
`src/`). -/
def SCITER_APP_INIT : Nat := 0

/-- Modelled from the spec: the run-loop application command. -/
def SCITER_APP_LOOP : Nat := 1

/-- Modelled from the spec: the stop application command. -/
def SCITER_APP_STOP : Nat := 2

/-- Windows `ShowWindow` command `SW_HIDE` (WinUser.h); the source passes
the literal `0`. -/
def SW_HIDE : Int := 0

/-- Windows `ShowWindow` command `SW_MINIMIZE` (WinUser.h); the source
passes the literal `6`. -/
def SW_MINIMIZE : Int := 6

/-- Windows `ShowWindow` command `SW_MAXIMIZE` (WinUser.h); the source
passes the literal `3`. -/
def SW_MAXIMIZE : Int := 3

/-- Windows `ShowWindow` command `SW_SHOWNORMAL` (WinUser.h); the source
passes the literal `1`. -/
def SW_SHOWNORMAL : Int := 1

namespace windows

/-- One foreign call made by the Windows backend. -/
inductive Effect where
  /-- `OleInitialize(null)` — the body of `OsWindow::init_app`. -/
  | oleInitialize
  /-- `(_API.SciterCreateWindow)(flags, &rc, null, 0, parent)`; the
  callback and callback-parameter arguments are the constant nulls the
  source passes, so only the varying arguments are recorded. -/
  | createWindow (flags : Nat) (rc : RECT) (parent : Handle)
  /-- `ShowWindow(hwnd, n)`. -/
  | showWindow (hwnd : Handle) (n : Int)
  /-- `PostMessageW(hwnd, msg, w, l)`. -/
  | postMessageW (hwnd : Handle) (msg w l : Nat)
deriving DecidableEq, Repr

/-- `windows::OsWindow`: stored handle and creation flags. -/
structure OsWindow where
  hwnd : Handle
  flags : Nat
deriving DecidableEq, Repr

/-- `windows::OsWindow::new()` — null handle, zero flags. -/
def OsWindow.new : OsWindow := { hwnd := 0, flags := 0 }

/-- `windows::OsWindow::from(hwnd)` — wraps a pre-existing handle; a pure
constructor: it issues no foreign call (no effect trace exists for it) and
does not invoke `create`. -/
def OsWindow.«from» (hwnd : Handle) : OsWindow := { hwnd := hwnd, flags := 0 }

/-- `windows::OsWindow::init_app()` — a single `OleInitialize(null)`. -/
def OsWindow.init_app : List Effect := [Effect.oleInitialize]

/-- `windows::OsWindow::get_hwnd`. -/
def OsWindow.get_hwnd (self : OsWindow) : Handle := self.hwnd

/-- `windows::OsWindow::create(rc, flags, parent)` in the non-windowless
build.  `engineRet` is the handle `SciterCreateWindow` returns.  Result:
the trace of calls, and `none` when the null-check panics
(`"Failed to create window!"`), otherwise the updated instance and the
returned handle. -/
def OsWindow.create (self : OsWindow) (rc : RECT) (flags : Nat) (parent : Handle)
    (engineRet : Handle) : List Effect × Option (OsWindow × Handle) :=
  let initTrace : List Effect :=
    if Nat.land flags SW_MAIN ≠ 0 then OsWindow.init_app else []
  let self1 : OsWindow := { self with flags := flags }
  let self2 : OsWindow := { self1 with hwnd := engineRet }
  (initTrace ++ [Effect.createWindow flags rc parent],
   if engineRet = 0 then none else some (self2, self2.hwnd))

/-- `windows::OsWindow::collapse(hide)` — `ShowWindow` with `0` (SW_HIDE)
when hiding, `6` (SW_MINIMIZE) otherwise. -/
def OsWindow.collapse (self : OsWindow) (hide : Bool) : List Effect :=
  let n : Int := if hide then 0 else 6
  [Effect.showWindow self.hwnd n]

/-- `windows::OsWindow::expand(maximize)` — `ShowWindow` with `3`
(SW_MAXIMIZE) when maximizing, `1` (SW_SHOWNORMAL) otherwise. -/
def OsWindow.expand (self : OsWindow) (maximize : Bool) : List Effect :=
  let n : Int := if maximize then 3 else 1
  [Effect.showWindow self.hwnd n]

/-- `windows::OsWindow::dismiss()` — `PostMessageW(hwnd, WM_CLOSE = 0x0010,
0, 0)`. -/
def OsWindow.dismiss (self : OsWindow) : List Effect :=
  [Effect.postMessageW self.hwnd 16 0 0]

end windows

namespace linux

/-- One foreign call made by the Linux backend. -/
inductive Effect where
  /-- `(_API.SciterExec)(cmd, a1, a2)`. -/
  | sciterExec (cmd a1 a2 : Nat)
  /-- `(_API.SciterCreateWindow)(flags, &rc, null, null, parent)`; the
  two constant null arguments are not recorded. -/
  | createWindow (flags : Nat) (rc : RECT) (parent : Handle)
  /-- `(_API.SciterWindowExec)(hwnd, cmd, p1, p2)`. -/
  | windowExec (hwnd : Handle) (cmd p1 p2 : Nat)
deriving DecidableEq, Repr

/-- `linux::OsWindow`: stored handle and creation flags. -/
structure OsWindow where
  hwnd : Handle
  flags : Nat
deriving DecidableEq, Repr

/-- `linux::OsWindow::new()`. -/
def OsWindow.new : OsWindow := { hwnd := 0, flags := 0 }

/-- `linux::OsWindow::from(hwnd)` — wraps a pre-existing handle; a pure
constructor: it issues no foreign call and does not invoke `create`. -/
def OsWindow.«from» (hwnd : Handle) : OsWindow := { hwnd := hwnd, flags := 0 }

/-- `linux::OsWindow::init_app()` —
`SciterExec(SCITER_APP_INIT, 0, 0)`. -/
def OsWindow.init_app : List Effect := [Effect.sciterExec SCITER_APP_INIT 0 0]

/-- `linux::OsWindow::get_hwnd`. -/
def OsWindow.get_hwnd (self : OsWindow) : Handle := self.hwnd

/-- `linux::OsWindow::window()` — returns `self.get_hwnd()`. -/
def OsWindow.window (self : OsWindow) : Handle := self.get_hwnd

/-- `linux::OsWindow::create(rc, flags, parent)` in the non-windowless
build; `engineRet` is the handle `SciterCreateWindow` returns.  Note this
backend checks the returned handle exactly as the Windows one does
(`if self.hwnd.is_null() { panic!(..) }`, `src/platform.rs:211-213`):
`none` models that panic. -/
def OsWindow.create (self : OsWindow) (rc : RECT) (flags : Nat) (parent : Handle)
    (engineRet : Handle) : List Effect × Option (OsWindow × Handle) :=
  let initTrace : List Effect :=
    if Nat.land flags SW_MAIN ≠ 0 then OsWindow.init_app else []
  let self1 : OsWindow := { self with flags := flags }
  let self2 : OsWindow := { self1 with hwnd := engineRet }
  (initTrace ++ [Effect.createWindow flags rc parent],
   if engineRet = 0 then none else some (self2, self2.hwnd))

/-- `linux::OsWindow::collapse(hide)` —
`SciterWindowExec(window, SET_STATE, HIDDEN | MINIMIZED, 0)`. -/
def OsWindow.collapse (self : OsWindow) (hide : Bool) : List Effect :=
  if hide then
    [Effect.windowExec self.window SCITER_WINDOW_SET_STATE SCITER_WINDOW_STATE_HIDDEN 0]
  else
    [Effect.windowExec self.window SCITER_WINDOW_SET_STATE SCITER_WINDOW_STATE_MINIMIZED 0]

/-- `linux::OsWindow::expand(maximize)` —
`SciterWindowExec(window, SET_STATE, MAXIMIZED | SHOWN, 0)`. -/
def OsWindow.expand (self : OsWindow) (maximize : Bool) : List Effect :=
  if maximize then
    [Effect.windowExec self.window SCITER_WINDOW_SET_STATE SCITER_WINDOW_STATE_MAXIMIZED 0]
  else
    [Effect.windowExec self.window SCITER_WINDOW_SET_STATE SCITER_WINDOW_STATE_SHOWN 0]

/-- `linux::OsWindow::dismiss()` —
`SciterWindowExec(window, SET_STATE, CLOSED, 0)`. -/
def OsWindow.dismiss (self : OsWindow) : List Effect :=
  [Effect.windowExec self.window SCITER_WINDOW_SET_STATE SCITER_WINDOW_STATE_CLOSED 0]

/-- `linux::OsWindow::set_title(title)` — the body is `unimplemented!()`,
a diverging "not implemented" abort: embedded as an `Except` that is
always the error (no state, no trace is ever produced). -/
def OsWindow.set_title (_self : OsWindow) (_title : String) : Except String OsWindow :=
  Except.error "not implemented"

/-- `linux::OsWindow::get_title()` — the body is `unimplemented!()`,
a diverging "not implemented" abort: embedded as an `Except` that is
always the error (no `String` is ever returned). -/
def OsWindow.get_title (_self : OsWindow) : Except String String :=
  Except.error "not implemented"

/-- `linux::OsWindow::run_app()` — `SciterExec(SCITER_APP_LOOP, 0, 0)`. -/
def OsWindow.run_app (_self : OsWindow) : List Effect :=
  [Effect.sciterExec SCITER_APP_LOOP 0 0]

/-- `linux::OsWindow::quit_app()` — `SciterExec(SCITER_APP_STOP, 0, 0)`. -/
def OsWindow.quit_app (_self : OsWindow) : List Effect :=
  [Effect.sciterExec SCITER_APP_STOP 0 0]

end linux

namespace macos

/-- One foreign call made by the macOS backend (a `msg_send!` or an engine
call); getter sends (`sharedApplication`, `window`) are not themselves
state-changing and are modelled by oracle arguments. -/
inductive Effect where
  /-- `msg_send![app, setActivationPolicy: Regular]` — the body of
  `OsWindow::init_app`. -/
  | setActivationPolicyRegular
  /-- `(_API.SciterCreateWindow)(flags, prc, 0, 0, 0)`: `prc` is `none`
  for the null rectangle pointer; the last three arguments are recorded
  as passed (all constant nulls — the `parent` parameter is never
  forwarded). -/
  | createWindow (flags : Nat) (prc : Option RECT) (cb cbParam parent : Handle)
  /-- `msg_send![wnd, orderOut: 0]`. -/
  | orderOut (wnd : Handle)
  /-- `msg_send![wnd, performMiniaturize: sender]`. -/
  | performMiniaturize (wnd sender : Handle)
  /-- `msg_send![app, activateIgnoringOtherApps: true]`. -/
  | activateIgnoringOtherApps
  /-- `msg_send![wnd, makeKeyAndOrderFront: 0]`. -/
  | makeKeyAndOrderFront (wnd : Handle)
  /-- `msg_send![wnd, performZoom: 0]`. -/
  | performZoom (wnd : Handle)
  /-- `msg_send![wnd, close]`. -/
  | closeWindow (wnd : Handle)
  /-- `msg_send![wnd, setTitle: s]`. -/
  | setTitle (wnd : Handle) (title : String)
deriving DecidableEq, Repr

/-- `macos::OsWindow`: stored handle (an `NSView` pointer) and creation
flags. -/
structure OsWindow where
  hwnd : Handle
  flags : Nat
deriving DecidableEq, Repr

/-- `macos::OsWindow::new()`. -/
def OsWindow.new : OsWindow := { hwnd := 0, flags := 0 }

/-- `macos::OsWindow::from(hwnd)` — wraps a pre-existing handle; a pure
constructor: it issues no foreign call and does not invoke `create`. -/
def OsWindow.«from» (hwnd : Handle) : OsWindow := { hwnd := hwnd, flags := 0 }

/-- `macos::OsWindow::init_app()` — sets the shared application's
activation policy to Regular. -/
def OsWindow.init_app : List Effect := [Effect.setActivationPolicyRegular]

/-- `macos::OsWindow::get_hwnd`. -/
def OsWindow.get_hwnd (self : OsWindow) : Handle := self.hwnd

/-- `macos::OsWindow::view()` — the stored handle as an object pointer. -/
def OsWindow.view (self : OsWindow) : Handle := self.get_hwnd

/-- `macos::OsWindow::window()` — sends the `window` selector to the view;
`wnd` is the object the OS returns; `assert!(!obj.is_null())` panics on
null, modelled by `none`. -/
def OsWindow.window (_self : OsWindow) (wnd : Handle) : Option Handle :=
  if wnd = 0 then none else some wnd

/-- `macos::OsWindow::create(rc, flags, parent)` in the non-windowless
build; `engineRet` is the handle `SciterCreateWindow` returns.  The
rectangle pointer is null unless width and height are both positive, and
the `parent` argument is ignored: the engine call passes `0` in its
place. -/
def OsWindow.create (self : OsWindow) (rc : RECT) (flags : Nat) (_parent : Handle)
    (engineRet : Handle) : List Effect × Option (OsWindow × Handle) :=
  let initTrace : List Effect :=
    if Nat.land flags SW_MAIN ≠ 0 then OsWindow.init_app else []
  let self1 : OsWindow := { self with flags := flags }
  let w : Int := rc.right - rc.left
  let h : Int := rc.bottom - rc.top
  let prc : Option RECT := if 0 < w ∧ 0 < h then some rc else none
  let self2 : OsWindow := { self1 with hwnd := engineRet }
  (initTrace ++ [Effect.createWindow flags prc 0 0 0],
   if engineRet = 0 then none else some (self2, self2.hwnd))

/-- `macos::OsWindow::collapse(hide)` — `orderOut` when hiding,
`performMiniaturize` (with the view as sender) otherwise; `wnd` is the
object the `window` selector returns, `none` models its null-assert
panic. -/
def OsWindow.collapse (self : OsWindow) (hide : Bool) (wnd : Handle) :
    Option (List Effect) :=
  (self.window wnd).map fun w =>
    if hide then [Effect.orderOut w]
    else [Effect.performMiniaturize w self.view]

/-- `macos::OsWindow::expand(maximize)` — activates the application first
when the stored flags have the title-bar bit, then `makeKeyAndOrderFront`,
then `performZoom` when maximizing; `wnd` is the object the `window`
selector returns. -/
def OsWindow.expand (self : OsWindow) (maximize : Bool) (wnd : Handle) :
    Option (List Effect) :=
  (self.window wnd).map fun w =>
    (if Nat.land self.flags SW_TITLEBAR ≠ 0 then [Effect.activateIgnoringOtherApps] else [])
      ++ [Effect.makeKeyAndOrderFront w]
      ++ (if maximize then [Effect.performZoom w] else [])

/-- `macos::OsWindow::dismiss()` — sends `close` to the window. -/
def OsWindow.dismiss (self : OsWindow) (wnd : Handle) : Option (List Effect) :=
  (self.window wnd).map fun w => [Effect.closeWindow w]

/-- `macos::OsWindow::set_title(title)` — sends `setTitle:` with the
bridged string. -/
def OsWindow.set_title (self : OsWindow) (title : String) (wnd : Handle) :
    Option (List Effect) :=
  (self.window wnd).map fun w => [Effect.setTitle w title]

/-- `macos::OsWindow::get_title()` — always returns the empty string. -/
def OsWindow.get_title (_self : OsWindow) : String := ""

end macos

/-- Concatenated trace of a sequence of `windows` `create` calls, one per
request `(rc, flags, parent, engineRet)`, each on a fresh instance (the
trace of `create` does not depend on the prior instance state, so this is
general). -/
def windows.createSeqTrace (reqs : List (RECT × Nat × Handle × Handle)) :
    List windows.Effect :=
  reqs.foldr
    (fun r acc =>
      (windows.OsWindow.create windows.OsWindow.new r.1 r.2.1 r.2.2.1 r.2.2.2).1 ++ acc)
    []

/-- Concatenated trace of a sequence of `linux` `create` calls, one per
request `(rc, flags, parent, engineRet)`, each on a fresh instance. -/
def linux.createSeqTrace (reqs : List (RECT × Nat × Handle × Handle)) :
    List linux.Effect :=
  reqs.foldr
    (fun r acc =>
      (linux.OsWindow.create linux.OsWindow.new r.1 r.2.1 r.2.2.1 r.2.2.2).1 ++ acc)
    []

/-- Recognizes the Windows application-initialization call
(`OleInitialize`, the body of `windows::OsWindow::init_app`). -/
def windows.isInitApp : windows.Effect → Bool
  | .oleInitialize => true
  | .createWindow _ _ _ => false
  | .showWindow _ _ => false
  | .postMessageW _ _ _ _ => false

/-- Recognizes the Linux application-initialization call
(`SciterExec(SCITER_APP_INIT, 0, 0)`, the body of
`linux::OsWindow::init_app`). -/
def linux.isInitApp : linux.Effect → Bool
  | .sciterExec cmd a1 a2 => cmd == SCITER_APP_INIT && a1 == 0 && a2 == 0
  | .createWindow _ _ _ => false
  | .windowExec _ _ _ _ => false

/-- Recognizes the macOS application-initialization call
(`setActivationPolicy: Regular`, the body of
`macos::OsWindow::init_app`). -/
def macos.isInitApp : macos.Effect → Bool
  | .setActivationPolicyRegular => true
  | .createWindow _ _ _ _ _ => false
  | .orderOut _ => false
  | .performMiniaturize _ _ => false
  | .activateIgnoringOtherApps => false
  | .makeKeyAndOrderFront _ => false
  | .performZoom _ => false
  | .closeWindow _ => false
  | .setTitle _ _ => false

theorem winCreate_initApp_count (s : windows.OsWindow) (rc : RECT)
    (flags : Nat) (parent ret : Handle) :
    ((windows.OsWindow.create s rc flags parent ret).1).countP windows.isInitApp =
      if Nat.land flags SW_MAIN ≠ 0 then 1 else 0 := by
  by_cases hm : Nat.land flags SW_MAIN ≠ 0 <;>
    simp [windows.OsWindow.create, windows.OsWindow.init_app, hm,
      windows.isInitApp, List.countP_cons, List.countP_nil]

theorem linCreate_initApp_count (s : linux.OsWindow) (rc : RECT)
    (flags : Nat) (parent ret : Handle) :
    ((linux.OsWindow.create s rc flags parent ret).1).countP linux.isInitApp =
      if Nat.land flags SW_MAIN ≠ 0 then 1 else 0 := by
  by_cases hm : Nat.land flags SW_MAIN ≠ 0 <;>
    simp [linux.OsWindow.create, linux.OsWindow.init_app, hm,
      linux.isInitApp, List.countP_cons, List.countP_nil]

theorem winCreateSeq_initApp_count (reqs : List (RECT × Nat × Handle × Handle)) :
    (windows.createSeqTrace reqs).countP windows.isInitApp =
      reqs.countP (fun r => decide (Nat.land r.2.1 SW_MAIN ≠ 0)) := by
  induction reqs with
  | nil => rfl
  | cons r rs ih =>
      simp only [windows.createSeqTrace, List.foldr_cons, List.countP_append,
        List.countP_cons] at *
      rw [ih, winCreate_initApp_count]
      by_cases hm : Nat.land r.2.1 SW_MAIN ≠ 0 <;> simp [hm, Nat.add_comm]

theorem linCreateSeq_initApp_count (reqs : List (RECT × Nat × Handle × Handle)) :
    (linux.createSeqTrace reqs).countP linux.isInitApp =
      reqs.countP (fun r => decide (Nat.land r.2.1 SW_MAIN ≠ 0)) := by
  induction reqs with
  | nil => rfl
  | cons r rs ih =>
      simp only [linux.createSeqTrace, List.foldr_cons, List.countP_append,
        List.countP_cons] at *
      rw [ih, linCreate_initApp_count]
      by_cases hm : Nat.land r.2.1 SW_MAIN ≠ 0 <;> simp [hm, Nat.add_comm]

/-- C1 (counterexample): the claim states that the Linux backend's
`create` performs no null check and returns the engine's handle
unchecked; in this code it does check (`src/platform.rs:211-213`): with
the engine returning the null handle, `create` reaches the
`"Failed to create window!"` panic (result `none`) instead of returning
the null handle. -/
theorem C1_linux_null_check_counterexample :
    (linux.OsWindow.create linux.OsWindow.new ⟨0, 0, 0, 0⟩ 0 0 0).2 = none ∧
    (linux.OsWindow.create linux.OsWindow.new ⟨0, 0, 0, 0⟩ 0 0 0).2 ≠
      some ({ hwnd := 0, flags := 0 }, 0) := by decide

/-- C1 (amended): in non-windowless builds, all three backends' `create`
check the handle returned by the engine's window-creation call and abort
with a diagnostic (panic, modelled by `none`) exactly when it is null;
none of them returns a null handle unchecked. -/
theorem C1_create_aborts_on_null_handle_all_backends
    (sw : windows.OsWindow) (sl : linux.OsWindow) (sm : macos.OsWindow)
    (rc : RECT) (flags : Nat) (parent ret : Handle) :
    ((windows.OsWindow.create sw rc flags parent ret).2 = none ↔ ret = 0)
  ∧ ((linux.OsWindow.create sl rc flags parent ret).2 = none ↔ ret = 0)
  ∧ ((macos.OsWindow.create sm rc flags parent ret).2 = none ↔ ret = 0) := by
  by_cases hz : ret = 0 <;>
    simp [windows.OsWindow.create, linux.OsWindow.create, macos.OsWindow.create, hz]

/-- C2 (counterexample): two `create` calls whose flags contain the
main-window bit, issued in the same process, run the application-level
initialization twice — not exactly once as the claim states: there is no
process-wide once-guard. -/
theorem C2_second_main_create_reinitializes :
    (windows.createSeqTrace
        [(⟨0, 0, 800, 600⟩, SW_MAIN, 0, 1), (⟨0, 0, 800, 600⟩, SW_MAIN, 0, 2)]).countP
      windows.isInitApp = 2 := by decide

/-- C2 (amended): application-level initialization runs once per `create`
whose flags contain the main-window bit — on every such create, not only
the first: over any sequence of creates, the number of `init_app` runs
equals the number of main-flagged creates (so a second main-flagged
create runs it again). -/
theorem C2_init_app_once_per_main_flagged_create :
    (∀ reqs : List (RECT × Nat × Handle × Handle),
        (windows.createSeqTrace reqs).countP windows.isInitApp =
          reqs.countP (fun r => decide (Nat.land r.2.1 SW_MAIN ≠ 0)))
  ∧ (∀ reqs : List (RECT × Nat × Handle × Handle),
        (linux.createSeqTrace reqs).countP linux.isInitApp =
          reqs.countP (fun r => decide (Nat.land r.2.1 SW_MAIN ≠ 0)))
  ∧ (∀ (s : macos.OsWindow) (rc : RECT) (flags : Nat) (parent ret : Handle),
        ((macos.OsWindow.create s rc flags parent ret).1).countP macos.isInitApp =
          if Nat.land flags SW_MAIN ≠ 0 then 1 else 0) := by
  refine ⟨winCreateSeq_initApp_count, linCreateSeq_initApp_count, ?_⟩
  intro s rc flags parent ret
  by_cases hm : Nat.land flags SW_MAIN ≠ 0 <;>
    simp [macos.OsWindow.create, macos.OsWindow.init_app, hm, macos.isInitApp,
      List.countP_cons]

/-- C3: for every backend, `get_hwnd` is the null handle right after
`new`, and whenever `create` returns successfully (does not hit the
null-handle panic) in non-windowless mode, the stored handle is non-null
and is the returned one. -/
theorem C3_handle_null_after_new_nonnull_after_create :
    (windows.OsWindow.new.get_hwnd = 0 ∧ linux.OsWindow.new.get_hwnd = 0 ∧
      macos.OsWindow.new.get_hwnd = 0)
  ∧ (∀ (s s' : windows.OsWindow) (rc : RECT) (flags : Nat) (parent ret h : Handle),
      (windows.OsWindow.create s rc flags parent ret).2 = some (s', h) →
        s'.get_hwnd ≠ 0 ∧ s'.get_hwnd = h)
  ∧ (∀ (s s' : linux.OsWindow) (rc : RECT) (flags : Nat) (parent ret h : Handle),
      (linux.OsWindow.create s rc flags parent ret).2 = some (s', h) →
        s'.get_hwnd ≠ 0 ∧ s'.get_hwnd = h)
  ∧ (∀ (s s' : macos.OsWindow) (rc : RECT) (flags : Nat) (parent ret h : Handle),
      (macos.OsWindow.create s rc flags parent ret).2 = some (s', h) →
        s'.get_hwnd ≠ 0 ∧ s'.get_hwnd = h) := by
  refine ⟨⟨rfl, rfl, rfl⟩, ?_, ?_, ?_⟩ <;>
  · intro s s' rc flags parent ret h hsome
    by_cases hz : ret = 0 <;>
      simp [windows.OsWindow.create, linux.OsWindow.create, macos.OsWindow.create,
        hz] at hsome
    obtain ⟨h1, h2⟩ := hsome
    subst h1; subst h2
    exact ⟨hz, rfl⟩

/-- C3 witness: a concrete successful creation on the Windows backend
yields the non-null stored handle `7`. -/
theorem C3_handle_null_after_new_nonnull_after_create_witness :
    ({ hwnd := 7, flags := 0 } : windows.OsWindow).get_hwnd ≠ 0 ∧
    ({ hwnd := 7, flags := 0 } : windows.OsWindow).get_hwnd = 7 :=
  C3_handle_null_after_new_nonnull_after_create.2.1 windows.OsWindow.new
    { hwnd := 7, flags := 0 } ⟨0, 0, 800, 600⟩ 0 0 7 7 (by decide)

/-- C4: for every handle and every backend, wrapping a pre-existing
handle with `from` makes `get_hwnd` return exactly that handle; `from` is
a pure record constructor (its result is fully determined, it emits no
effect and never invokes `create` or the application initialization). -/
theorem C4_from_returns_exactly_the_given_handle (h : Handle) :
    ((windows.OsWindow.«from» h).get_hwnd = h ∧
      windows.OsWindow.«from» h = { hwnd := h, flags := 0 })
  ∧ ((linux.OsWindow.«from» h).get_hwnd = h ∧
      linux.OsWindow.«from» h = { hwnd := h, flags := 0 })
  ∧ ((macos.OsWindow.«from» h).get_hwnd = h ∧
      macos.OsWindow.«from» h = { hwnd := h, flags := 0 }) :=
  ⟨⟨rfl, rfl⟩, ⟨rfl, rfl⟩, ⟨rfl, rfl⟩⟩

/-- C5: for every backend and all flags, `create` runs the one-time
application initialization before the engine allocation call exactly when
the main-window bit is set (the emitted trace is the initalization
followed by the single allocation call, or the allocation call alone),
and any successfully returned instance carries the given flags. -/
theorem C5_create_init_iff_main_bit_and_records_flags
    (sw : windows.OsWindow) (sl : linux.OsWindow) (sm : macos.OsWindow)
    (rc : RECT) (flags : Nat) (parent ret : Handle) :
    ((windows.OsWindow.create sw rc flags parent ret).1 =
        (if Nat.land flags SW_MAIN ≠ 0 then windows.OsWindow.init_app else [])
          ++ [windows.Effect.createWindow flags rc parent]
      ∧ ∀ s' h, (windows.OsWindow.create sw rc flags parent ret).2 = some (s', h) →
          s'.flags = flags)
  ∧ ((linux.OsWindow.create sl rc flags parent ret).1 =
        (if Nat.land flags SW_MAIN ≠ 0 then linux.OsWindow.init_app else [])
          ++ [linux.Effect.createWindow flags rc parent]
      ∧ ∀ s' h, (linux.OsWindow.create sl rc flags parent ret).2 = some (s', h) →
          s'.flags = flags)
  ∧ ((macos.OsWindow.create sm rc flags parent ret).1 =
        (if Nat.land flags SW_MAIN ≠ 0 then macos.OsWindow.init_app else [])
          ++ [macos.Effect.createWindow flags
                (if 0 < rc.right - rc.left ∧ 0 < rc.bottom - rc.top then some rc else none)
                0 0 0]
      ∧ ∀ s' h, (macos.OsWindow.create sm rc flags parent ret).2 = some (s', h) →
          s'.flags = flags) := by
  refine ⟨⟨rfl, ?_⟩, ⟨rfl, ?_⟩, ⟨rfl, ?_⟩⟩ <;>
  · intro s' h hsome
    by_cases hz : ret = 0 <;>
      simp [windows.OsWindow.create, linux.OsWindow.create, macos.OsWindow.create,
        hz] at hsome
    obtain ⟨h1, h2⟩ := hsome
    subst h1
    rfl

/-- C5 witness: a concrete main-flagged creation on each backend stores
the given flags on the returned instance. -/
theorem C5_create_init_iff_main_bit_and_records_flags_witness :
    ({ hwnd := 3, flags := SW_MAIN } : windows.OsWindow).flags = SW_MAIN ∧
    ({ hwnd := 3, flags := SW_MAIN } : linux.OsWindow).flags = SW_MAIN ∧
    ({ hwnd := 3, flags := SW_MAIN } : macos.OsWindow).flags = SW_MAIN :=
  ⟨(C5_create_init_iff_main_bit_and_records_flags windows.OsWindow.new
      linux.OsWindow.new macos.OsWindow.new ⟨0, 0, 800, 600⟩ SW_MAIN 0 3).1.2
      { hwnd := 3, flags := SW_MAIN } 3 (by decide),
   (C5_create_init_iff_main_bit_and_records_flags windows.OsWindow.new
      linux.OsWindow.new macos.OsWindow.new ⟨0, 0, 800, 600⟩ SW_MAIN 0 3).2.1.2
      { hwnd := 3, flags := SW_MAIN } 3 (by decide),
   (C5_create_init_iff_main_bit_and_records_flags windows.OsWindow.new
      linux.OsWindow.new macos.OsWindow.new ⟨0, 0, 800, 600⟩ SW_MAIN 0 3).2.2.2
      { hwnd := 3, flags := SW_MAIN } 3 (by decide)⟩

/-- C6: for every backend, `collapse(true)` issues exactly the platform's
hide request (`ShowWindow` with SW_HIDE / window-command with the Hidden
state / `orderOut`) and `collapse(false)` issues exactly the minimize
request (`ShowWindow` with SW_MINIMIZE / the Minimized state /
`performMiniaturize`), each as the sole state-changing call. -/
theorem C6_collapse_issues_exactly_hide_or_minimize
    (sw : windows.OsWindow) (sl : linux.OsWindow) (sm : macos.OsWindow)
    (wnd : Handle) (hw : wnd ≠ 0) :
    (windows.OsWindow.collapse sw true = [windows.Effect.showWindow sw.hwnd SW_HIDE]
      ∧ windows.OsWindow.collapse sw false = [windows.Effect.showWindow sw.hwnd SW_MINIMIZE])
  ∧ (linux.OsWindow.collapse sl true =
        [linux.Effect.windowExec sl.hwnd SCITER_WINDOW_SET_STATE SCITER_WINDOW_STATE_HIDDEN 0]
      ∧ linux.OsWindow.collapse sl false =
        [linux.Effect.windowExec sl.hwnd SCITER_WINDOW_SET_STATE SCITER_WINDOW_STATE_MINIMIZED 0])
  ∧ (macos.OsWindow.collapse sm true wnd = some [macos.Effect.orderOut wnd]
      ∧ macos.OsWindow.collapse sm false wnd =
        some [macos.Effect.performMiniaturize wnd sm.hwnd]) := by
  refine ⟨⟨rfl, rfl⟩, ⟨rfl, rfl⟩, ?_, ?_⟩ <;>
    simp [macos.OsWindow.collapse, macos.OsWindow.window, macos.OsWindow.view,
      macos.OsWindow.get_hwnd, hw]

/-- C6 witness: the three backends' `collapse`, on a concrete instance
with handle 5 (macOS window object 9), issue exactly the hide and
minimize requests. -/
theorem C6_collapse_issues_exactly_hide_or_minimize_witness :
    (windows.OsWindow.collapse { hwnd := 5, flags := 0 } true =
        [windows.Effect.showWindow 5 SW_HIDE]
      ∧ windows.OsWindow.collapse { hwnd := 5, flags := 0 } false =
        [windows.Effect.showWindow 5 SW_MINIMIZE])
  ∧ (linux.OsWindow.collapse { hwnd := 5, flags := 0 } true =
        [linux.Effect.windowExec 5 SCITER_WINDOW_SET_STATE SCITER_WINDOW_STATE_HIDDEN 0]
      ∧ linux.OsWindow.collapse { hwnd := 5, flags := 0 } false =
        [linux.Effect.windowExec 5 SCITER_WINDOW_SET_STATE SCITER_WINDOW_STATE_MINIMIZED 0])
  ∧ (macos.OsWindow.collapse { hwnd := 5, flags := 0 } true 9 =
        some [macos.Effect.orderOut 9]
      ∧ macos.OsWindow.collapse { hwnd := 5, flags := 0 } false 9 =
        some [macos.Effect.performMiniaturize 9 5]) :=
  C6_collapse_issues_exactly_hide_or_minimize
    { hwnd := 5, flags := 0 } { hwnd := 5, flags := 0 } { hwnd := 5, flags := 0 }
    9 (by decide)

/-- C7: on the macOS backend, `expand` requests application activation
first exactly when the stored flags have the title-bar bit, then sends
`makeKeyAndOrderFront`, and sends `performZoom` exactly when `maximize`
is true — and nothing else. -/
theorem C7_macos_expand_activate_front_zoom
    (s : macos.OsWindow) (maximize : Bool) (wnd : Handle) (hw : wnd ≠ 0) :
    macos.OsWindow.expand s maximize wnd =
      some ((if Nat.land s.flags SW_TITLEBAR ≠ 0
              then [macos.Effect.activateIgnoringOtherApps] else [])
        ++ [macos.Effect.makeKeyAndOrderFront wnd]
        ++ (if maximize then [macos.Effect.performZoom wnd] else [])) := by
  simp [macos.OsWindow.expand, macos.OsWindow.window, hw]

/-- C7 witness: a concrete titled window, maximized: activation, then
front, then zoom. -/
theorem C7_macos_expand_activate_front_zoom_witness :
    macos.OsWindow.expand { hwnd := 4, flags := SW_TITLEBAR } true 9 =
      some [macos.Effect.activateIgnoringOtherApps,
        macos.Effect.makeKeyAndOrderFront 9, macos.Effect.performZoom 9] := by
  simpa using
    C7_macos_expand_activate_front_zoom { hwnd := 4, flags := SW_TITLEBAR } true 9
      (by decide)

/-- C8: on the Linux backend, `set_title` and `get_title` always fail
loudly with the "not implemented" abort (`unimplemented!()`), never
silently succeeding or returning a default value. -/
theorem C8_linux_title_operations_fail_loudly (s : linux.OsWindow) (t : String) :
    linux.OsWindow.set_title s t = Except.error "not implemented" ∧
    linux.OsWindow.get_title s = Except.error "not implemented" :=
  ⟨rfl, rfl⟩

/-- C9: degenerate geometry (zero or negative width or height) never
makes `create` fail — success depends only on the engine's returned
handle on every backend — and on macOS the rectangle pointer passed to
the engine is null exactly for degenerate geometry, the rectangle itself
exactly for positive width and height. -/
theorem C9_degenerate_geometry_lets_platform_choose
    (sw : windows.OsWindow) (sl : linux.OsWindow) (sm : macos.OsWindow)
    (rc : RECT) (flags : Nat) (parent ret : Handle) :
    ((rc.right - rc.left ≤ 0 ∨ rc.bottom - rc.top ≤ 0) →
        (macos.OsWindow.create sm rc flags parent ret).1 =
          (if Nat.land flags SW_MAIN ≠ 0 then macos.OsWindow.init_app else [])
            ++ [macos.Effect.createWindow flags none 0 0 0])
  ∧ (0 < rc.right - rc.left → 0 < rc.bottom - rc.top →
        (macos.OsWindow.create sm rc flags parent ret).1 =
          (if Nat.land flags SW_MAIN ≠ 0 then macos.OsWindow.init_app else [])
            ++ [macos.Effect.createWindow flags (some rc) 0 0 0])
  ∧ ((windows.OsWindow.create sw rc flags parent ret).2.isSome ↔ ret ≠ 0)
  ∧ ((linux.OsWindow.create sl rc flags parent ret).2.isSome ↔ ret ≠ 0)
  ∧ ((macos.OsWindow.create sm rc flags parent ret).2.isSome ↔ ret ≠ 0) := by
  refine ⟨?_, ?_, ?_, ?_, ?_⟩
  · intro hdeg
    have hne : ¬(0 < rc.right - rc.left ∧ 0 < rc.bottom - rc.top) := by omega
    simp only [macos.OsWindow.create]
    rw [if_neg hne]
  · intro hwpos hhpos
    simp [macos.OsWindow.create, hwpos, hhpos]
  · by_cases hz : ret = 0 <;> simp [windows.OsWindow.create, hz]
  · by_cases hz : ret = 0 <;> simp [linux.OsWindow.create, hz]
  · by_cases hz : ret = 0 <;> simp [macos.OsWindow.create, hz]

/-- C9 witness: zero-sized geometry (0,0,0,0): the macOS engine call gets
the null rectangle pointer, and creation still succeeds on each backend
when the engine returns handle 5. -/
theorem C9_degenerate_geometry_lets_platform_choose_witness :
    ((macos.OsWindow.create macos.OsWindow.new ⟨0, 0, 0, 0⟩ 0 0 5).1 =
        [macos.Effect.createWindow 0 none 0 0 0])
  ∧ (windows.OsWindow.create windows.OsWindow.new ⟨0, 0, 0, 0⟩ 0 0 5).2.isSome
  ∧ (linux.OsWindow.create linux.OsWindow.new ⟨0, 0, 0, 0⟩ 0 0 5).2.isSome
  ∧ (macos.OsWindow.create macos.OsWindow.new ⟨0, 0, 0, 0⟩ 0 0 5).2.isSome := by
  have h := C9_degenerate_geometry_lets_platform_choose windows.OsWindow.new
    linux.OsWindow.new macos.OsWindow.new ⟨0, 0, 0, 0⟩ 0 0 5
  refine ⟨by simpa using h.1 (Or.inl (by decide)), ?_, ?_, ?_⟩
  · exact h.2.2.1.mpr (by decide)
  · exact h.2.2.2.1.mpr (by decide)
  · exact h.2.2.2.2.mpr (by decide)

/-- C10: the macOS backend's `create` ignores its `parent` argument: its
whole result (trace, stored state, returned handle) is the same for any
two parents, and the engine's window-creation call carries the constant
null in the parent position. -/
theorem C10_macos_create_ignores_parent
    (s : macos.OsWindow) (rc : RECT) (flags : Nat) (p q ret : Handle) :
    macos.OsWindow.create s rc flags p ret = macos.OsWindow.create s rc flags q ret
  ∧ (macos.OsWindow.create s rc flags p ret).1 =
      (if Nat.land flags SW_MAIN ≠ 0 then macos.OsWindow.init_app else [])
        ++ [macos.Effect.createWindow flags
              (if 0 < rc.right - rc.left ∧ 0 < rc.bottom - rc.top then some rc else none)
              0 0 0] :=
  ⟨rfl, rfl⟩
